import Mathlib

/-!
Verification of the change-detection monitor of the te-monitor repository.

The embedding models the orchestration loop shared by the two monitor
variants in the repository: the monolithic monitor in te-alert.js and the
modular monitor in src/web-page-monitor.js.  Pure data flow is translated
into Lean functions; external I/O steps (page acquisition, file reads,
webhook posts, the lamp actuation, the injected alert callback) are
represented by explicit outcome parameters, and the side effects a cycle
performs are collected into an explicit effect trace.
-/

/-- Model of a JavaScript primitive value as it can appear in the hash
field of a state record.  The injected getElementHash functions return a
string, a number, null or undefined, and the monitors compare these with
strict (in)equality, so a constructor-level equality is the faithful
translation of the === / !== comparisons in the source. -/
inductive JSPrim where
  | null
  | undef
  | boolean (b : Bool)
  | int (n : Int)
  | str (s : String)
deriving DecidableEq, Repr

/-- JavaScript truthiness of a primitive value: null, undefined, false,
0 and the empty string are falsy, everything else is truthy. -/
def JSPrim.truthy : JSPrim → Bool
  | .null => false
  | .undef => false
  | .boolean b => b
  | .int n => decide (n ≠ 0)
  | .str s => decide (s ≠ "")

/-- The persisted fingerprint record.  In the source the record built by
compareContent / getElementHash also carries a wall-clock timestamp and
the configured url and selector; no code path compares or branches on
those fields, so only the hash field is modelled. -/
structure StateRecord where
  hash : JSPrim
deriving DecidableEq, Repr

/-- A state value as seen by checkForChanges: either null (te-alert.js
getElementHash returns null when the element is missing; loadPreviousState
returns null on any read failure) or a record object.  A record object is
always truthy in JavaScript, whatever its hash field holds. -/
inductive StateVal where
  | null
  | obj (r : StateRecord)
deriving DecidableEq, Repr

/-- The optional-chaining read previousState?.hash used when the alert
object is built: reading .hash off null yields undefined. -/
def StateVal.optHash : StateVal → JSPrim
  | .null => .undef
  | .obj r => r.hash

/-- The alert object built by triggerAlert.  The source also stores a
wall-clock timestamp plus the configured url and selector (and, in
te-alert.js, a coarse changes list); the claims only inspect the reason
and the two hashes. -/
structure AlertRec where
  reason : String
  previousHash : JSPrim
  currentHash : JSPrim
deriving DecidableEq, Repr

/-- Builds the alert object exactly as triggerAlert does:
previousHash := previousState?.hash, currentHash := currentState?.hash. -/
def mkAlert (reason : String) (prev cur : StateVal) : AlertRec :=
  ⟨reason, prev.optHash, cur.optHash⟩

/-- Observable side effects of one detection cycle, in program order:
an acquisition attempt with its retryCount index, a backoff wait of the
given milliseconds, the construction and fan-out of one alert event, the
lamp actuation with its hue, a webhook POST together with the success of
that POST, an invocation of the injected onAlert callback, and a state
file write. -/
inductive Effect where
  | attemptFetch (k : Nat)
  | wait (ms : Nat)
  | alertEvent (a : AlertRec)
  | lampCall (hue : Nat)
  | webhookPost (a : AlertRec) (ok : Bool)
  | onAlertCall (a : AlertRec)
  | saveState (r : StateRecord)
deriving DecidableEq, Repr

/-- The state writes contained in an effect trace. -/
def savesOf (es : List Effect) : List StateRecord :=
  es.filterMap fun e =>
    match e with
    | .saveState r => some r
    | _ => none

/-- The alert events contained in an effect trace. -/
def alertsOf (es : List Effect) : List AlertRec :=
  es.filterMap fun e =>
    match e with
    | .alertEvent a => some a
    | _ => none

/-- The acquisition attempts contained in an effect trace. -/
def attemptsOf (es : List Effect) : List Nat :=
  es.filterMap fun e =>
    match e with
    | .attemptFetch k => some k
    | _ => none

/-- The backoff waits contained in an effect trace. -/
def waitsOf (es : List Effect) : List Nat :=
  es.filterMap fun e =>
    match e with
    | .wait ms => some ms
    | _ => none

/-- The webhook POSTs contained in an effect trace. -/
def webhooksOf (es : List Effect) : List AlertRec :=
  es.filterMap fun e =>
    match e with
    | .webhookPost a _ => some a
    | _ => none

/-- The onAlert callback invocations contained in an effect trace. -/
def onAlertCallsOf (es : List Effect) : List AlertRec :=
  es.filterMap fun e =>
    match e with
    | .onAlertCall a => some a
    | _ => none

/-- The lamp actuations contained in an effect trace. -/
def lampCallsOf (es : List Effect) : List Nat :=
  es.filterMap fun e =>
    match e with
    | .lampCall hue => some hue
    | _ => none

/-- The value checkForChanges returns on its normal (non-throwing) exit:
the changed flag, the reason string, and the error message carried only
by the catch path. -/
structure CycleResult where
  changed : Bool
  reason : String
  errMsg : Option String
deriving DecidableEq, Repr

/-- Configuration and external-outcome parameters of the modular monitor
relevant to alert dispatch: whether config.alertWebhook is set, whether
the webhook POST succeeds, and the injected config.onAlert callback.
The callback is modelled as none when the configuration does not provide
one, and as some r where r is the outcome of awaiting the callback. -/
structure ModCfg where
  webhookConfigured : Bool
  webhookOk : Bool
  onAlert : Option (Except String Unit)

/-- Alert dispatch of the modular monitor, web-page-monitor.js lines
221 to 243.  The alert object is built, the webhook notification is sent
when configured (sendWebhookNotification catches its own failures, so its
outcome never alters control flow), and then this.config.onAlert(alert)
is awaited unconditionally: when no callback was configured, calling
undefined raises a TypeError that escapes triggerAlert; when the callback
itself rejects, that failure escapes as well. -/
def triggerAlertMod (cfg : ModCfg) (reason : String) (prev cur : StateVal) :
    Except String Unit × List Effect :=
  let a := mkAlert reason prev cur
  let wes := if cfg.webhookConfigured then [Effect.webhookPost a cfg.webhookOk] else []
  match cfg.onAlert with
  | none =>
    (Except.error "this.config.onAlert is not a function", Effect.alertEvent a :: wes)
  | some r => (r, Effect.alertEvent a :: (wes ++ [Effect.onAlertCall a]))

/-- Configuration and external-outcome parameters of the te-alert.js
dispatcher, which additionally always actuates the lamp channel. -/
structure TECfg where
  webhookConfigured : Bool
  webhookOk : Bool
  onAlert : Option (Except String Unit)
  lampResult : Except String Unit

/-- Alert dispatch of the monolithic monitor, te-alert.js lines 598 to
630.  The alert object is built, then alertViaLamp(alert.currentHash ?
240 : 120) is awaited with no surrounding try/catch: a lamp failure
escapes triggerAlert before the webhook or the callback is attempted.
When the lamp call succeeds, the webhook is posted when configured (its
failures are caught inside sendWebhookNotification), and finally the
onAlert callback is awaited when one is configured (te-alert.js guards
this call with an if, unlike the modular monitor). -/
def triggerAlertTE (cfg : TECfg) (reason : String) (prev cur : StateVal) :
    Except String Unit × List Effect :=
  let a := mkAlert reason prev cur
  let hue := if a.currentHash.truthy then 240 else 120
  match cfg.lampResult with
  | Except.error m => (Except.error m, [Effect.alertEvent a, Effect.lampCall hue])
  | Except.ok _ =>
    let wes := if cfg.webhookConfigured then [Effect.webhookPost a cfg.webhookOk] else []
    match cfg.onAlert with
    | none => (Except.ok (), Effect.alertEvent a :: Effect.lampCall hue :: wes)
    | some r =>
      (r, Effect.alertEvent a :: Effect.lampCall hue :: (wes ++ [Effect.onAlertCall a]))

/-- The retry loop of compareContent (web-page-monitor.js lines 101 to
147) and getElementHash (te-alert.js lines 364 to 427): attempt number k
(the retryCount parameter) runs the acquisition; on failure, while
retryCount is below maxRetries, the code waits retryDelay * (retryCount
plus one) and recurses with retryCount plus one; at retryCount equal to
maxRetries the last error is rethrown.  The recursion is translated with
a fuel argument; every call keeps fuel at maxRetries + 1 - k, so the
fuel-exhaustion branch is unreachable from compareContent below. -/
def compareContentAux (attempt : Nat → Except String JSPrim)
    (maxRetries retryDelay : Nat) : Nat → Nat → Except String JSPrim × List Effect
  | 0, _ => (Except.error "out of fuel", [])
  | Nat.succ fuel, k =>
    match attempt k with
    | Except.ok h => (Except.ok h, [Effect.attemptFetch k])
    | Except.error e =>
      if k < maxRetries then
        let rest := compareContentAux attempt maxRetries retryDelay fuel (k + 1)
        (rest.1, Effect.attemptFetch k :: Effect.wait (retryDelay * (k + 1)) :: rest.2)
      else (Except.error e, [Effect.attemptFetch k])

/-- compareContent of the modular monitor: run the retry loop from
retryCount 0 and, on success, wrap whatever hash value the injected
config.getElementHash produced into a fresh record object (the source
builds an object literal with hash, timestamp, url and selector and
returns it, so the successful return value is always a truthy object,
whatever the hash is). -/
def compareContent (attempt : Nat → Except String JSPrim)
    (maxRetries retryDelay : Nat) : Except String StateVal × List Effect :=
  let out := compareContentAux attempt maxRetries retryDelay (maxRetries + 1) 0
  (out.1.map (fun h => StateVal.obj ⟨h⟩), out.2)

/-- Outcome of the fs.readFile call in loadPreviousState: either the file
contents, or a rejection whose error carries an optional code string
(ENOENT for a missing file; other codes for other I/O failures; none for
errors without a code property, such as the SyntaxError of JSON.parse,
which is modelled through the parse parameter instead). -/
inductive ReadOutcome where
  | ok (data : String)
  | err (code : Option String)

/-- loadPreviousState, web-page-monitor.js lines 152 to 162 (textually
identical in te-alert.js lines 491 to 501): read and JSON.parse the
state file inside a try; the catch logs the error unless its code is
ENOENT and returns null in every failure case, so the function never
throws.  The Bool component records whether the error was logged. -/
def loadPreviousState (read : ReadOutcome)
    (parse : String → Except String StateVal) : StateVal × Bool :=
  match read with
  | ReadOutcome.err c =>
    if c = some "ENOENT" then (StateVal.null, false) else (StateVal.null, true)
  | ReadOutcome.ok data =>
    match parse data with
    | Except.ok v => (v, false)
    | Except.error _ => (StateVal.null, true)

/-- One detection cycle of the modular monitor, checkForChanges at
web-page-monitor.js lines 181 to 216.  The acq argument is the result
and effect trace of the compareContent call; previousState is the value
loadPreviousState produced (that call never throws, see above).  The
body mirrors the source: a falsy currentState triggers the not-found
alert; a missing previous state saves the baseline and reports
initial_state without alerting; differing hashes trigger the change
alert and then save; equal hashes report no_changes.  Any error thrown
inside the try block, including one thrown by triggerAlert itself, is
handled by the catch block, which triggers the monitoring-error alert
and returns the error-classified result; an error thrown by that final
triggerAlert call escapes checkForChanges, which the Except.error result
represents.  saveState never throws (it catches its own write errors). -/
def checkForChangesMod (cfg : ModCfg) (acq : Except String StateVal × List Effect)
    (previousState : StateVal) : Except String CycleResult × List Effect :=
  let catchPath := fun (msg : String) (pending : List Effect) =>
    let t := triggerAlertMod cfg ("Monitoring error: " ++ msg) StateVal.null StateVal.null
    match t.1 with
    | Except.ok _ => (Except.ok ⟨false, "error", some msg⟩, pending ++ t.2)
    | Except.error m => (Except.error m, pending ++ t.2)
  match acq with
  | (Except.error msg, aes) => catchPath msg aes
  | (Except.ok currentState, aes) =>
    match currentState with
    | StateVal.null =>
      let t := triggerAlertMod cfg "Unable to retrieve state (element not found?)"
        previousState StateVal.null
      match t.1 with
      | Except.ok _ => (Except.ok ⟨true, "state_retrieval_failed", none⟩, aes ++ t.2)
      | Except.error m => catchPath m (aes ++ t.2)
    | StateVal.obj cur =>
      match previousState with
      | StateVal.null =>
        (Except.ok ⟨false, "initial_state", none⟩, aes ++ [Effect.saveState cur])
      | StateVal.obj prev =>
        if cur.hash ≠ prev.hash then
          let t := triggerAlertMod cfg "Change Detected" (StateVal.obj prev)
            (StateVal.obj cur)
          match t.1 with
          | Except.ok _ =>
            (Except.ok ⟨true, "hash_changed", none⟩, aes ++ t.2 ++ [Effect.saveState cur])
          | Except.error m => catchPath m (aes ++ t.2)
        else (Except.ok ⟨false, "no_changes", none⟩, aes)

/-- Applying the state writes of an effect trace to the state file: each
saveState fully replaces the persisted record (fs.writeFile overwrites
the file). -/
def applyEffects (fs : Option StateRecord) (es : List Effect) : Option StateRecord :=
  es.foldl
    (fun s e =>
      match e with
      | Effect.saveState r => some r
      | _ => s)
    fs

/-- A successful read of the state file: loading an absent file yields
null (the ENOENT branch of loadPreviousState) and loading a previously
written record yields that record (readFile plus JSON.parse of what
saveState serialized). -/
def loadFromFile : Option StateRecord → StateVal
  | none => StateVal.null
  | some r => StateVal.obj r

/-- Running n consecutive detection cycles of the modular monitor with a
healthy state file: each cycle reads the record left by previous cycles,
runs checkForChanges, and applies its state writes to the file. -/
def runCycles (cfg : ModCfg) (attempt : Nat → Except String JSPrim)
    (maxRetries retryDelay : Nat) :
    Nat → Option StateRecord → List (Except String CycleResult × List Effect) × Option StateRecord
  | 0, fs => ([], fs)
  | Nat.succ n, fs =>
    let out := checkForChangesMod cfg (compareContent attempt maxRetries retryDelay)
      (loadFromFile fs)
    let fs2 := applyEffects fs out.2
    let rest := runCycles cfg attempt maxRetries retryDelay n fs2
    (out :: rest.1, rest.2)

/-- State of the poll scheduler: how many checkForChanges runs are in
flight at the moment. -/
structure SchedState where
  activeRuns : Nat
deriving DecidableEq, Repr

/-- Events observed by the scheduler model: an interval tick fires, or an
in-flight checkForChanges run finishes. -/
inductive SchedEvent where
  | tick
  | runDone
deriving DecidableEq, Repr

/-- One scheduler transition, from start at web-page-monitor.js lines
285 to 292 (identically te-alert.js lines 699 to 706).  The setInterval
callback is exactly async () => await this.checkForChanges(): it contains
no guard of any kind, so a tick always begins a new run even while one is
still in flight (the isMonitoring flag is consulted only at the top of
start, to make a second start call a no-op).  A finishing run decrements
the in-flight count. -/
def schedStep (s : SchedState) : SchedEvent → SchedState
  | SchedEvent.tick => ⟨s.activeRuns + 1⟩
  | SchedEvent.runDone => ⟨s.activeRuns - 1⟩

/-- The scheduler state after a sequence of events, starting idle. -/
def runSched (events : List SchedEvent) : SchedState :=
  events.foldl schedStep ⟨0⟩

/-- The double-quote character, written by code point. -/
def quoteChar : Char := Char.ofNat 34

/-- The backslash character, written by code point. -/
def backslashChar : Char := Char.ofNat 92

/-- The opening curly bracket, written by code point. -/
def lcurlyChar : Char := Char.ofNat 123

/-- The closing curly bracket, written by code point. -/
def rcurlyChar : Char := Char.ofNat 125

/-- Decimal digit character for a value below ten. -/
def digitChar (n : Nat) : Char := Char.ofNat (48 + n)

/-- Lowercase hexadecimal digit character for a value below sixteen. -/
def hexDigitChar (n : Nat) : Char :=
  if n < 10 then Char.ofNat (48 + n) else Char.ofNat (87 + n)

/-- Decimal digits of a natural number, most significant first, with a
fuel argument making the recursion structural; fuel n + 1 always
suffices since a number has at most as many digits as its value plus
one. -/
def natDigitsAux : Nat → Nat → List Char
  | 0, _ => []
  | Nat.succ fuel, n =>
    if n < 10 then [digitChar n] else natDigitsAux fuel (n / 10) ++ [digitChar (n % 10)]

/-- Decimal digits of a natural number (the JavaScript Number toString
rendering for the non-negative integers appearing in element data). -/
def natDigits (n : Nat) : List Char := natDigitsAux (n + 1) n

/-- JSON rendering of an integer, matching JSON.stringify on integral
JavaScript numbers. -/
def encInt : Int → List Char
  | Int.ofNat n => natDigits n
  | Int.negSucc n => '-' :: natDigits (n + 1)

/-- JSON.stringify escaping of one character: the double quote and the
backslash get a backslash escape, the control characters with short
forms use them, the remaining control characters are written as a
four-digit unicode escape, and every other character stands for
itself. -/
def escChar (c : Char) : List Char :=
  if c = quoteChar then [backslashChar, quoteChar]
  else if c = backslashChar then [backslashChar, backslashChar]
  else if c.toNat = 8 then [backslashChar, 'b']
  else if c.toNat = 9 then [backslashChar, 't']
  else if c.toNat = 10 then [backslashChar, 'n']
  else if c.toNat = 12 then [backslashChar, 'f']
  else if c.toNat = 13 then [backslashChar, 'r']
  else if c.toNat < 32 then
    [backslashChar, 'u', '0', '0', hexDigitChar (c.toNat / 16), hexDigitChar (c.toNat % 16)]
  else [c]

/-- JSON rendering of a string: quoted, with each character escaped. -/
def encString (s : String) : List Char :=
  quoteChar :: (s.data.map escChar).flatten ++ [quoteChar]

/-- A JSON object key followed by a colon, as JSON.stringify writes it
for the plain identifier keys of the element-data records. -/
def keyPrefix (k : String) : List Char :=
  quoteChar :: k.data ++ [quoteChar, ':']

/-- JSON rendering of an object with the given already-rendered field
values, keys in insertion order as JSON.stringify preserves them. -/
def encObj (fields : List (String × List Char)) : List Char :=
  lcurlyChar :: ((fields.map fun f => keyPrefix f.1 ++ f.2).intersperse [',']).flatten
    ++ [rcurlyChar]

/-- JSON rendering of an array of already-rendered items. -/
def encArr (items : List (List Char)) : List Char :=
  '[' :: (items.intersperse [',']).flatten ++ [']']

/-- One name/value attribute pair as extracted from a DOM element. -/
structure AttrPair where
  name : String
  value : String
deriving DecidableEq, Repr

/-- The bounding rectangle captured per element.  getBoundingClientRect
produces double-precision coordinates; the claims under verification do
not depend on fractional coordinates, so the coordinates are modelled as
integers. -/
structure BoundingBox where
  x : Int
  y : Int
  width : Int
  height : Int
  top : Int
  right : Int
  bottom : Int
  left : Int
deriving DecidableEq, Repr

/-- One element of a snapshot as extracted by te-alert.js (lines 337 to
348): outerHTML, trimmed textContent, tagName, the class list, the full
attribute list, the direct child count, and the bounding rectangle, in
that key order. -/
structure ElementData where
  outerHTML : String
  textContent : String
  tagName : String
  classList : List String
  attributes : List AttrPair
  childrenCount : Nat
  boundingBox : BoundingBox
deriving DecidableEq, Repr

/-- JSON rendering of one attribute record. -/
def encAttr (a : AttrPair) : List Char :=
  encObj [("name", encString a.name), ("value", encString a.value)]

/-- JSON rendering of the bounding rectangle, field order as DOMRect
serializes. -/
def encBBox (b : BoundingBox) : List Char :=
  encObj
    [("x", encInt b.x), ("y", encInt b.y), ("width", encInt b.width),
      ("height", encInt b.height), ("top", encInt b.top), ("right", encInt b.right),
      ("bottom", encInt b.bottom), ("left", encInt b.left)]

/-- JSON rendering of one extracted element, keys in the insertion order
of the object literal built inside page evaluation. -/
def encElement (e : ElementData) : List Char :=
  encObj
    [("outerHTML", encString e.outerHTML), ("textContent", encString e.textContent),
      ("tagName", encString e.tagName),
      ("classList", encArr (e.classList.map encString)),
      ("attributes", encArr (e.attributes.map encAttr)),
      ("childrenCount", natDigits e.childrenCount),
      ("boundingBox", encBBox e.boundingBox)]

/-- JSON.stringify of the extracted element array, the exact hash input
of te-alert.js getElementHash. -/
def jsonStringifyElements (es : List ElementData) : List Char :=
  encArr (es.map encElement)

/-- A SHA-256 digest, modelled as a wrapper around its preimage: digest
equality holds exactly on preimage equality.  This models the collision
resistance the design relies on; the 256-bit compression itself is not
otherwise observable by the monitor. -/
structure Sha256Digest where
  preimage : List Char
deriving DecidableEq, Repr

/-- The modelled SHA-256 digest of a character sequence. -/
def sha256 (s : List Char) : Sha256Digest := ⟨s⟩

/-- The hashing step of te-alert.js getElementHash, lines 393 to 399:
the source sets hashContent to elementData unconditionally and digests
JSON.stringify(hashContent).  The ignoreMinorChanges configuration flag
is accepted here to record that the source never consults it at this
point: neither the flag nor getSignificantContent influences the digest,
even though the configuration documents the flag as ignoring timestamp
changes and getSignificantContent is documented as the comparison
content that ignores minor changes. -/
def TEAlert.getElementHash (ignoreMinorChanges : Bool)
    (elementData : List ElementData) : Sha256Digest :=
  sha256 (jsonStringifyElements elementData)

/-- The canonical element produced by getSignificantContent: text,
tag, child count, and the attributes that survive the volatile-name
filter. -/
structure SigElement where
  textContent : String
  tagName : String
  childrenCount : Nat
  significantAttributes : List AttrPair
deriving DecidableEq, Repr

/-- getSignificantContent, te-alert.js lines 474 to 486: keeps
textContent, tagName and childrenCount of each element and filters out
the attributes named data-timestamp, data-random or id.  The source
defines this method for ignore-minor-changes comparison but never calls
it. -/
def getSignificantContent (elementData : List ElementData) : List SigElement :=
  elementData.map fun el =>
    ⟨el.textContent, el.tagName, el.childrenCount,
      el.attributes.filter fun attr =>
        ¬ (attr.name ∈ (["data-timestamp", "data-random", "id"] : List String))⟩

/-- The injected getElementHash of the modular entry point (the unnamed
top-level file, lines 12 to 31): it counts the elements matching the
selector, digests the count string with SHA-256, discards that digest,
and returns elementCount.toString(); when the page evaluation fails it
returns the number 0.  The argument is the outcome of the element
count evaluation. -/
def Part000.getElementHash (countResult : Except String Nat) : JSPrim :=
  match countResult with
  | Except.ok n => JSPrim.str (String.mk (natDigits n))
  | Except.error _ => JSPrim.int 0

/-- Whether an effect is one of the two effects the acquisition retry
loop can produce. -/
def acqEffect : Effect → Bool
  | Effect.attemptFetch _ => true
  | Effect.wait _ => true
  | _ => false

/-- Total number of state writes across a list of cycle outputs. -/
def totalSaves (outs : List (Except String CycleResult × List Effect)) : Nat :=
  (outs.map fun o => (savesOf o.2).length).sum

/-- Total number of alert events across a list of cycle outputs. -/
def totalAlerts (outs : List (Except String CycleResult × List Effect)) : Nat :=
  (outs.map fun o => (alertsOf o.2).length).sum

/-- Sample snapshot with one div element whose data-timestamp attribute
holds 1, used to exercise the ignore-minor-changes hashing. -/
def sampleElt1 : ElementData :=
  ⟨"<div data-timestamp=\"1\">x</div>", "x", "DIV", [],
    [⟨"data-timestamp", "1"⟩], 0, ⟨0, 0, 100, 20, 0, 100, 20, 0⟩⟩

/-- The same snapshot as sampleElt1 except that the deny-listed
data-timestamp attribute now holds 2 (the outerHTML reflects the changed
attribute, and outerHTML is not part of the significant content). -/
def sampleElt2 : ElementData :=
  ⟨"<div data-timestamp=\"2\">x</div>", "x", "DIV", [],
    [⟨"data-timestamp", "2"⟩], 0, ⟨0, 0, 100, 20, 0, 100, 20, 0⟩⟩

theorem triggerAlertMod_fst (cfg : ModCfg) (o : Except String Unit)
    (h : cfg.onAlert = some o) (reason : String) (prev cur : StateVal) :
    (triggerAlertMod cfg reason prev cur).1 = o := by
  simp [triggerAlertMod, h]

theorem compareContentAux_acqEffects (attempt : Nat → Except String JSPrim)
    (maxRetries retryDelay : Nat) :
    ∀ fuel k, ∀ e ∈ (compareContentAux attempt maxRetries retryDelay fuel k).2,
      acqEffect e = true := by
  intro fuel
  induction fuel with
  | zero =>
    intro k e he
    simp [compareContentAux] at he
  | succ f ih =>
    intro k e he
    simp only [compareContentAux] at he
    cases hA : attempt k with
    | ok h =>
      rw [hA] at he
      simp at he
      simp [he, acqEffect]
    | error msg =>
      rw [hA] at he
      by_cases hk : k < maxRetries
      · simp [hk] at he
        rcases he with he | he | he
        · simp [he, acqEffect]
        · simp [he, acqEffect]
        · exact ih (k + 1) e he
      · simp [hk] at he
        simp [he, acqEffect]

theorem savesOf_of_acq (es : List Effect) (h : ∀ e ∈ es, acqEffect e = true) :
    savesOf es = [] := by
  induction es with
  | nil => simp [savesOf]
  | cons e es ih =>
    have he := h e (by simp)
    have hrest : savesOf es = [] := ih fun x hx => h x (by simp [hx])
    cases e <;> simp [acqEffect] at he <;> simpa [savesOf, List.filterMap_cons] using hrest

theorem alertsOf_of_acq (es : List Effect) (h : ∀ e ∈ es, acqEffect e = true) :
    alertsOf es = [] := by
  induction es with
  | nil => simp [alertsOf]
  | cons e es ih =>
    have he := h e (by simp)
    have hrest : alertsOf es = [] := ih fun x hx => h x (by simp [hx])
    cases e <;> simp [acqEffect] at he <;> simpa [alertsOf, List.filterMap_cons] using hrest

theorem savesOf_compareContent (attempt : Nat → Except String JSPrim)
    (maxRetries retryDelay : Nat) :
    savesOf (compareContent attempt maxRetries retryDelay).2 = [] := by
  apply savesOf_of_acq
  simpa [compareContent] using
    compareContentAux_acqEffects attempt maxRetries retryDelay (maxRetries + 1) 0

theorem alertsOf_compareContent (attempt : Nat → Except String JSPrim)
    (maxRetries retryDelay : Nat) :
    alertsOf (compareContent attempt maxRetries retryDelay).2 = [] := by
  apply alertsOf_of_acq
  simpa [compareContent] using
    compareContentAux_acqEffects attempt maxRetries retryDelay (maxRetries + 1) 0

theorem compareContent_ok_obj (attempt : Nat → Except String JSPrim)
    (maxRetries retryDelay : Nat) (v : StateVal)
    (h : (compareContent attempt maxRetries retryDelay).1 = Except.ok v) :
    ∃ r, v = StateVal.obj r := by
  simp only [compareContent] at h
  cases hout : (compareContentAux attempt maxRetries retryDelay (maxRetries + 1) 0).1 with
  | ok hv =>
    rw [hout] at h
    simp [Except.map] at h
    exact ⟨⟨hv⟩, h.symm⟩
  | error e =>
    rw [hout] at h
    simp [Except.map] at h

theorem compareContent_first_ok (attempt : Nat → Except String JSPrim)
    (maxRetries retryDelay : Nat) (h : JSPrim) (hA : attempt 0 = Except.ok h) :
    compareContent attempt maxRetries retryDelay =
      (Except.ok (StateVal.obj ⟨h⟩), [Effect.attemptFetch 0]) := by
  show (let out := compareContentAux attempt maxRetries retryDelay (Nat.succ maxRetries) 0
    (out.1.map (fun h => StateVal.obj ⟨h⟩), out.2)) = _
  simp [compareContentAux, hA, Except.map]

theorem checkForChangesMod_initial (cfg : ModCfg) (aes : List Effect) (cur : StateRecord) :
    checkForChangesMod cfg (Except.ok (StateVal.obj cur), aes) StateVal.null =
      (Except.ok ⟨false, "initial_state", none⟩, aes ++ [Effect.saveState cur]) := by
  simp [checkForChangesMod]

theorem checkForChangesMod_no_change (cfg : ModCfg) (aes : List Effect)
    (cur prev : StateRecord) (heq : cur.hash = prev.hash) :
    checkForChangesMod cfg (Except.ok (StateVal.obj cur), aes) (StateVal.obj prev) =
      (Except.ok ⟨false, "no_changes", none⟩, aes) := by
  simp [checkForChangesMod, heq]

theorem checkForChangesMod_changed (cfg : ModCfg)
    (hOn : cfg.onAlert = some (Except.ok ())) (aes : List Effect)
    (cur prev : StateRecord) (hne : cur.hash ≠ prev.hash) :
    (checkForChangesMod cfg (Except.ok (StateVal.obj cur), aes) (StateVal.obj prev)).1 =
        Except.ok ⟨true, "hash_changed", none⟩ ∧
      savesOf (checkForChangesMod cfg (Except.ok (StateVal.obj cur), aes)
          (StateVal.obj prev)).2 = savesOf aes ++ [cur] ∧
      alertsOf (checkForChangesMod cfg (Except.ok (StateVal.obj cur), aes)
          (StateVal.obj prev)).2 =
        alertsOf aes ++ [⟨"Change Detected", prev.hash, cur.hash⟩] := by
  obtain ⟨wc, wok, oa⟩ := cfg
  simp only at hOn
  subst hOn
  cases wc <;>
    simp [checkForChangesMod, triggerAlertMod, hne, mkAlert, StateVal.optHash,
      savesOf, alertsOf, List.filterMap_append]

theorem checkForChangesMod_error (cfg : ModCfg)
    (hOn : cfg.onAlert = some (Except.ok ())) (msg : String) (aes : List Effect)
    (load : StateVal) :
    (checkForChangesMod cfg (Except.error msg, aes) load).1 =
        Except.ok ⟨false, "error", some msg⟩ ∧
      savesOf (checkForChangesMod cfg (Except.error msg, aes) load).2 = savesOf aes ∧
      alertsOf (checkForChangesMod cfg (Except.error msg, aes) load).2 =
        alertsOf aes ++ [⟨"Monitoring error: " ++ msg, JSPrim.undef, JSPrim.undef⟩] ∧
      attemptsOf (checkForChangesMod cfg (Except.error msg, aes) load).2 =
        attemptsOf aes ∧
      waitsOf (checkForChangesMod cfg (Except.error msg, aes) load).2 = waitsOf aes := by
  obtain ⟨wc, wok, oa⟩ := cfg
  simp only at hOn
  subst hOn
  cases wc <;>
    simp [checkForChangesMod, triggerAlertMod, mkAlert, StateVal.optHash,
      savesOf, alertsOf, attemptsOf, waitsOf, List.filterMap_append]

theorem runCycles_steady (cfg : ModCfg) (attempt : Nat → Except String JSPrim)
    (maxRetries retryDelay : Nat) (h : JSPrim) (hA : attempt 0 = Except.ok h) :
    ∀ n, runCycles cfg attempt maxRetries retryDelay n (some ⟨h⟩) =
      (List.replicate n
        (Except.ok (⟨false, "no_changes", none⟩ : CycleResult), [Effect.attemptFetch 0]),
        some ⟨h⟩) := by
  have hstep : checkForChangesMod cfg (compareContent attempt maxRetries retryDelay)
      (loadFromFile (some ⟨h⟩)) =
      (Except.ok ⟨false, "no_changes", none⟩, [Effect.attemptFetch 0]) := by
    rw [compareContent_first_ok attempt maxRetries retryDelay h hA]
    simp [loadFromFile]
    exact checkForChangesMod_no_change cfg [Effect.attemptFetch 0] ⟨h⟩ ⟨h⟩ rfl
  intro n
  induction n with
  | zero => simp [runCycles]
  | succ m ih =>
    simp [runCycles, hstep, applyEffects, ih, List.replicate_succ]

theorem runSched_replicate_tick :
    ∀ (n : Nat) (s : SchedState),
      (List.replicate n SchedEvent.tick).foldl schedStep s = ⟨s.activeRuns + n⟩ := by
  intro n
  induction n with
  | zero => intro s; simp
  | succ m ih =>
    intro s
    rw [List.replicate_succ, List.foldl_cons]
    rw [ih]
    simp [schedStep]
    omega

theorem compareContent_allFail2 (attempt : Nat → Except String JSPrim) (e : Nat → String)
    (retryDelay : Nat) (hfail : ∀ k, attempt k = Except.error (e k)) :
    compareContent attempt 2 retryDelay =
      (Except.error (e 2),
        [Effect.attemptFetch 0, Effect.wait (retryDelay * 1), Effect.attemptFetch 1,
          Effect.wait (retryDelay * 2), Effect.attemptFetch 2]) := by
  have h0 := hfail 0
  have h1 := hfail 1
  have h2 := hfail 2
  simp [compareContent, compareContentAux, h0, h1, h2, Except.map]

/-- Claim C1: with a persisted prior record of hash H1, a cycle whose
acquisition succeeds with a record hashing to H2 different from H1, and
a configured alert callback that completes normally, checkForChanges
returns the changed outcome with reason hash_changed, persists exactly
one record, namely the new record carrying H2, and dispatches exactly
one alert event whose previousHash is H1 and whose currentHash is H2. -/
theorem c1_change_detection (cfg : ModCfg) (attempt : Nat → Except String JSPrim)
    (maxRetries retryDelay : Nat) (h1 h2 : JSPrim)
    (hOn : cfg.onAlert = some (Except.ok ()))
    (hacq : (compareContent attempt maxRetries retryDelay).1 =
      Except.ok (StateVal.obj ⟨h2⟩))
    (hne : h2 ≠ h1) :
    (checkForChangesMod cfg (compareContent attempt maxRetries retryDelay)
        (StateVal.obj ⟨h1⟩)).1 = Except.ok ⟨true, "hash_changed", none⟩ ∧
      savesOf (checkForChangesMod cfg (compareContent attempt maxRetries retryDelay)
        (StateVal.obj ⟨h1⟩)).2 = [⟨h2⟩] ∧
      alertsOf (checkForChangesMod cfg (compareContent attempt maxRetries retryDelay)
        (StateVal.obj ⟨h1⟩)).2 = [⟨"Change Detected", h1, h2⟩] := by
  have hs := savesOf_compareContent attempt maxRetries retryDelay
  have ha := alertsOf_compareContent attempt maxRetries retryDelay
  rcases hP : compareContent attempt maxRetries retryDelay with ⟨r, aes⟩
  rw [hP] at hacq hs ha
  simp only at hacq hs ha
  subst hacq
  have hmain := checkForChangesMod_changed cfg hOn aes ⟨h2⟩ ⟨h1⟩ hne
  simpa [hs, ha] using hmain

theorem c1_change_detection_witness :
    (⟨false, true, some (Except.ok ())⟩ : ModCfg).onAlert = some (Except.ok ()) ∧
      (compareContent (fun _ => Except.ok (JSPrim.str "h2")) 3 3000).1 =
        Except.ok (StateVal.obj ⟨JSPrim.str "h2"⟩) ∧
      JSPrim.str "h2" ≠ JSPrim.str "h1" ∧
      ((checkForChangesMod ⟨false, true, some (Except.ok ())⟩
          (compareContent (fun _ => Except.ok (JSPrim.str "h2")) 3 3000)
          (StateVal.obj ⟨JSPrim.str "h1"⟩)).1 = Except.ok ⟨true, "hash_changed", none⟩ ∧
        savesOf (checkForChangesMod ⟨false, true, some (Except.ok ())⟩
          (compareContent (fun _ => Except.ok (JSPrim.str "h2")) 3 3000)
          (StateVal.obj ⟨JSPrim.str "h1"⟩)).2 = [⟨JSPrim.str "h2"⟩] ∧
        alertsOf (checkForChangesMod ⟨false, true, some (Except.ok ())⟩
          (compareContent (fun _ => Except.ok (JSPrim.str "h2")) 3 3000)
          (StateVal.obj ⟨JSPrim.str "h1"⟩)).2 =
          [⟨"Change Detected", JSPrim.str "h1", JSPrim.str "h2"⟩]) :=
  ⟨rfl, rfl, by decide,
    c1_change_detection ⟨false, true, some (Except.ok ())⟩
      (fun _ => Except.ok (JSPrim.str "h2")) 3 3000 (JSPrim.str "h1") (JSPrim.str "h2")
      rfl rfl (by decide)⟩

/-- Claim C2: with no persisted prior record, a cycle whose acquisition
succeeds returns the initial-state outcome (changed false, reason
initial_state), performs exactly one state write, namely of the new
record, and dispatches zero alerts. -/
theorem c2_first_run_baseline (cfg : ModCfg) (attempt : Nat → Except String JSPrim)
    (maxRetries retryDelay : Nat) (cur : StateRecord)
    (hacq : (compareContent attempt maxRetries retryDelay).1 =
      Except.ok (StateVal.obj cur)) :
    (checkForChangesMod cfg (compareContent attempt maxRetries retryDelay)
        StateVal.null).1 = Except.ok ⟨false, "initial_state", none⟩ ∧
      savesOf (checkForChangesMod cfg (compareContent attempt maxRetries retryDelay)
        StateVal.null).2 = [cur] ∧
      alertsOf (checkForChangesMod cfg (compareContent attempt maxRetries retryDelay)
        StateVal.null).2 = [] := by
  have hs := savesOf_compareContent attempt maxRetries retryDelay
  have ha := alertsOf_compareContent attempt maxRetries retryDelay
  rcases hP : compareContent attempt maxRetries retryDelay with ⟨r, aes⟩
  rw [hP] at hacq hs ha
  simp only at hacq hs ha
  subst hacq
  rw [checkForChangesMod_initial]
  refine ⟨rfl, ?_, ?_⟩
  · simp only [savesOf, List.filterMap_append] at *
    simp [hs, savesOf]
  · simp only [alertsOf, List.filterMap_append] at *
    simp [ha, alertsOf]

theorem c2_first_run_baseline_witness :
    (compareContent (fun _ => Except.ok (JSPrim.str "h0")) 3 3000).1 =
        Except.ok (StateVal.obj ⟨JSPrim.str "h0"⟩) ∧
      ((checkForChangesMod ⟨true, true, none⟩
          (compareContent (fun _ => Except.ok (JSPrim.str "h0")) 3 3000)
          StateVal.null).1 = Except.ok ⟨false, "initial_state", none⟩ ∧
        savesOf (checkForChangesMod ⟨true, true, none⟩
          (compareContent (fun _ => Except.ok (JSPrim.str "h0")) 3 3000)
          StateVal.null).2 = [⟨JSPrim.str "h0"⟩] ∧
        alertsOf (checkForChangesMod ⟨true, true, none⟩
          (compareContent (fun _ => Except.ok (JSPrim.str "h0")) 3 3000)
          StateVal.null).2 = []) :=
  ⟨rfl,
    c2_first_run_baseline ⟨true, true, none⟩ (fun _ => Except.ok (JSPrim.str "h0"))
      3 3000 ⟨JSPrim.str "h0"⟩ rfl⟩

/-- Claim C3: with maxRetries 2 and an acquisition that fails on every
attempt, the cycle makes exactly the three attempts 0, 1 and 2, waits
retryDelay times one before the first retry and retryDelay times two
before the second (linear backoff), is classified as an error run
carrying the last failure, dispatches exactly one alert whose reason is
the monitoring-error message, and performs no state write. -/
theorem c3_retry_exhaustion (cfg : ModCfg) (attempt : Nat → Except String JSPrim)
    (e : Nat → String) (retryDelay : Nat) (load : StateVal)
    (hfail : ∀ k, attempt k = Except.error (e k))
    (hOn : cfg.onAlert = some (Except.ok ())) :
    attemptsOf (checkForChangesMod cfg (compareContent attempt 2 retryDelay) load).2 =
        [0, 1, 2] ∧
      waitsOf (checkForChangesMod cfg (compareContent attempt 2 retryDelay) load).2 =
        [retryDelay * 1, retryDelay * 2] ∧
      (checkForChangesMod cfg (compareContent attempt 2 retryDelay) load).1 =
        Except.ok ⟨false, "error", some (e 2)⟩ ∧
      alertsOf (checkForChangesMod cfg (compareContent attempt 2 retryDelay) load).2 =
        [⟨"Monitoring error: " ++ e 2, JSPrim.undef, JSPrim.undef⟩] ∧
      savesOf (checkForChangesMod cfg (compareContent attempt 2 retryDelay) load).2 = [] := by
  rw [compareContent_allFail2 attempt e retryDelay hfail]
  obtain ⟨hr, hsv, hal, hat, hwt⟩ :=
    checkForChangesMod_error cfg hOn (e 2)
      [Effect.attemptFetch 0, Effect.wait (retryDelay * 1), Effect.attemptFetch 1,
        Effect.wait (retryDelay * 2), Effect.attemptFetch 2] load
  refine ⟨?_, ?_, hr, ?_, ?_⟩
  · rw [hat]; simp [attemptsOf]
  · rw [hwt]; simp [waitsOf]
  · rw [hal]; simp [alertsOf]
  · rw [hsv]; simp [savesOf]

theorem c3_retry_exhaustion_witness :
    (∀ k, (fun (_ : Nat) => Except.error (ε := String) (α := JSPrim) "net down") k =
        Except.error ((fun (_ : Nat) => "net down") k)) ∧
      (⟨true, true, some (Except.ok ())⟩ : ModCfg).onAlert = some (Except.ok ()) ∧
      (attemptsOf (checkForChangesMod ⟨true, true, some (Except.ok ())⟩
          (compareContent (fun _ => Except.error "net down") 2 3000) StateVal.null).2 =
          [0, 1, 2] ∧
        waitsOf (checkForChangesMod ⟨true, true, some (Except.ok ())⟩
          (compareContent (fun _ => Except.error "net down") 2 3000) StateVal.null).2 =
          [3000 * 1, 3000 * 2] ∧
        (checkForChangesMod ⟨true, true, some (Except.ok ())⟩
          (compareContent (fun _ => Except.error "net down") 2 3000) StateVal.null).1 =
          Except.ok ⟨false, "error", some "net down"⟩ ∧
        alertsOf (checkForChangesMod ⟨true, true, some (Except.ok ())⟩
          (compareContent (fun _ => Except.error "net down") 2 3000) StateVal.null).2 =
          [⟨"Monitoring error: " ++ "net down", JSPrim.undef, JSPrim.undef⟩] ∧
        savesOf (checkForChangesMod ⟨true, true, some (Except.ok ())⟩
          (compareContent (fun _ => Except.error "net down") 2 3000) StateVal.null).2 = []) :=
  ⟨fun _ => rfl, rfl,
    c3_retry_exhaustion ⟨true, true, some (Except.ok ())⟩
      (fun _ => Except.error "net down") (fun _ => "net down") 3000 StateVal.null
      (fun _ => rfl) rfl⟩

/-- Claim C8: starting from no persisted record, with the acquisition
succeeding with the same hash on every cycle, the first cycle reports
initial_state and every subsequent cycle reports no_changes; across all
cycles exactly one state write happens in total (the initial one) and
zero alerts are dispatched. -/
theorem c8_no_change_idempotent (cfg : ModCfg) (attempt : Nat → Except String JSPrim)
    (maxRetries retryDelay n : Nat) (h : JSPrim) (hA : attempt 0 = Except.ok h) :
    (runCycles cfg attempt maxRetries retryDelay (n + 1) none).1 =
        (Except.ok (⟨false, "initial_state", none⟩ : CycleResult),
          [Effect.attemptFetch 0, Effect.saveState ⟨h⟩]) ::
          List.replicate n
            (Except.ok (⟨false, "no_changes", none⟩ : CycleResult),
              [Effect.attemptFetch 0]) ∧
      totalSaves (runCycles cfg attempt maxRetries retryDelay (n + 1) none).1 = 1 ∧
      totalAlerts (runCycles cfg attempt maxRetries retryDelay (n + 1) none).1 = 0 := by
  have hfirst : checkForChangesMod cfg (compareContent attempt maxRetries retryDelay)
      (loadFromFile none) =
      (Except.ok ⟨false, "initial_state", none⟩,
        [Effect.attemptFetch 0, Effect.saveState ⟨h⟩]) := by
    rw [compareContent_first_ok attempt maxRetries retryDelay h hA]
    simpa [loadFromFile] using checkForChangesMod_initial cfg [Effect.attemptFetch 0] ⟨h⟩
  have hlist : (runCycles cfg attempt maxRetries retryDelay (n + 1) none).1 =
      (Except.ok (⟨false, "initial_state", none⟩ : CycleResult),
        [Effect.attemptFetch 0, Effect.saveState ⟨h⟩]) ::
        List.replicate n
          (Except.ok (⟨false, "no_changes", none⟩ : CycleResult),
            [Effect.attemptFetch 0]) := by
    simp [runCycles, hfirst, applyEffects,
      runCycles_steady cfg attempt maxRetries retryDelay h hA n]
  refine ⟨hlist, ?_, ?_⟩
  · rw [hlist]
    simp [totalSaves, savesOf, List.map_replicate, List.sum_replicate]
  · rw [hlist]
    simp [totalAlerts, alertsOf, List.map_replicate, List.sum_replicate]

theorem c8_no_change_idempotent_witness :
    (fun (_ : Nat) => Except.ok (ε := String) (JSPrim.str "same")) 0 =
        Except.ok (JSPrim.str "same") ∧
      ((runCycles ⟨true, true, some (Except.ok ())⟩
          (fun _ => Except.ok (JSPrim.str "same")) 3 3000 3 none).1 =
        (Except.ok (⟨false, "initial_state", none⟩ : CycleResult),
          [Effect.attemptFetch 0, Effect.saveState ⟨JSPrim.str "same"⟩]) ::
          List.replicate 2
            (Except.ok (⟨false, "no_changes", none⟩ : CycleResult),
              [Effect.attemptFetch 0]) ∧
        totalSaves (runCycles ⟨true, true, some (Except.ok ())⟩
          (fun _ => Except.ok (JSPrim.str "same")) 3 3000 3 none).1 = 1 ∧
        totalAlerts (runCycles ⟨true, true, some (Except.ok ())⟩
          (fun _ => Except.ok (JSPrim.str "same")) 3 3000 3 none).1 = 0) :=
  ⟨rfl,
    c8_no_change_idempotent ⟨true, true, some (Except.ok ())⟩
      (fun _ => Except.ok (JSPrim.str "same")) 3 3000 2 (JSPrim.str "same") rfl⟩

/-- Claim C9: loadPreviousState treats a missing state file (ENOENT) as
absence without logging; every other read failure and every parse
failure yields absence with logging instead of raising (the function is
total); and a corrupted state file therefore sends the following
successful cycle down the initial-state path rather than failing the
run. -/
theorem c9_load_fails_open (parse : String → Except String StateVal)
    (c : Option String) (data : String) (perr : String) (cfg : ModCfg)
    (cur : StateRecord) (aes : List Effect)
    (hc : c ≠ some "ENOENT") (hp : parse data = Except.error perr) :
    loadPreviousState (ReadOutcome.err (some "ENOENT")) parse = (StateVal.null, false) ∧
      loadPreviousState (ReadOutcome.err c) parse = (StateVal.null, true) ∧
      loadPreviousState (ReadOutcome.ok data) parse = (StateVal.null, true) ∧
      (checkForChangesMod cfg (Except.ok (StateVal.obj cur), aes)
          (loadPreviousState (ReadOutcome.ok data) parse).1).1 =
        Except.ok ⟨false, "initial_state", none⟩ := by
  have hload : loadPreviousState (ReadOutcome.ok data) parse = (StateVal.null, true) := by
    simp [loadPreviousState, hp]
  refine ⟨by simp [loadPreviousState], by simp [loadPreviousState, hc], hload, ?_⟩
  rw [hload]
  rw [show ((StateVal.null, true) : StateVal × Bool).1 = StateVal.null from rfl]
  rw [checkForChangesMod_initial]

theorem c9_load_fails_open_witness :
    (some "EACCES" : Option String) ≠ some "ENOENT" ∧
      (fun (_ : String) => Except.error (α := StateVal) "SyntaxError") "garbage" =
        Except.error "SyntaxError" ∧
      (loadPreviousState (ReadOutcome.err (some "ENOENT"))
          (fun _ => Except.error "SyntaxError") = (StateVal.null, false) ∧
        loadPreviousState (ReadOutcome.err (some "EACCES"))
          (fun _ => Except.error "SyntaxError") = (StateVal.null, true) ∧
        loadPreviousState (ReadOutcome.ok "garbage")
          (fun _ => Except.error "SyntaxError") = (StateVal.null, true) ∧
        (checkForChangesMod ⟨false, true, some (Except.ok ())⟩
            (Except.ok (StateVal.obj ⟨JSPrim.str "h"⟩), [])
            (loadPreviousState (ReadOutcome.ok "garbage")
              (fun _ => Except.error "SyntaxError")).1).1 =
          Except.ok ⟨false, "initial_state", none⟩) :=
  ⟨by decide, rfl,
    c9_load_fails_open (fun _ => Except.error "SyntaxError") (some "EACCES")
      "garbage" "SyntaxError" ⟨false, true, some (Except.ok ())⟩
      ⟨JSPrim.str "h"⟩ [] (by decide) rfl⟩

/-- Claim C10: compareContent either fails or returns a record object,
which is truthy whatever hash value the injected getElementHash
produced (null, zero or an empty string included), so the
falsy-currentState branch of checkForChanges is unreachable: a cycle
fed by compareContent never produces the state_retrieval_failed
outcome, whatever the configuration and prior state. -/
theorem c10_not_found_branch_unreachable (attempt : Nat → Except String JSPrim)
    (maxRetries retryDelay : Nat) :
    (∀ v, (compareContent attempt maxRetries retryDelay).1 = Except.ok v →
        ∃ r, v = StateVal.obj r) ∧
      ∀ (cfg : ModCfg) (load : StateVal),
        (checkForChangesMod cfg (compareContent attempt maxRetries retryDelay) load).1 ≠
          Except.ok ⟨true, "state_retrieval_failed", none⟩ := by
  constructor
  · exact fun v => compareContent_ok_obj attempt maxRetries retryDelay v
  · have hobj := compareContent_ok_obj attempt maxRetries retryDelay
    rcases hP : compareContent attempt maxRetries retryDelay with ⟨r, aes⟩
    intro cfg load
    cases r with
    | error msg =>
      rcases hOA : cfg.onAlert with _ | o
      · simp [checkForChangesMod, triggerAlertMod, hOA]
      · cases o with
        | ok u => simp [checkForChangesMod, triggerAlertMod, hOA]
        | error m => simp [checkForChangesMod, triggerAlertMod, hOA]
    | ok sv =>
      cases sv with
      | null =>
        have hno : ∃ rr, StateVal.null = StateVal.obj rr := by
          apply hobj StateVal.null
          rw [hP]
        rcases hno with ⟨rr, hrr⟩
        exact absurd hrr (by simp)
      | obj cur =>
        cases load with
        | null =>
          rw [checkForChangesMod_initial]
          simp
        | obj prev =>
          by_cases hh : cur.hash = prev.hash
          · rw [checkForChangesMod_no_change cfg aes cur prev hh]
            simp
          · rcases hOA : cfg.onAlert with _ | o
            · simp [checkForChangesMod, triggerAlertMod, hOA, hh]
            · cases o with
              | ok u => simp [checkForChangesMod, triggerAlertMod, hOA, hh]
              | error m => simp [checkForChangesMod, triggerAlertMod, hOA, hh]

theorem c10_not_found_branch_unreachable_witness :
    (compareContent (fun _ => Except.ok (Part000.getElementHash (Except.error "eval failed")))
        3 3000).1 = Except.ok (StateVal.obj ⟨JSPrim.int 0⟩) ∧
      (∃ r, StateVal.obj (⟨JSPrim.int 0⟩ : StateRecord) = StateVal.obj r) ∧
      (checkForChangesMod ⟨false, true, some (Except.ok ())⟩
          (compareContent
            (fun _ => Except.ok (Part000.getElementHash (Except.error "eval failed")))
            3 3000) StateVal.null).1 ≠
        Except.ok ⟨true, "state_retrieval_failed", none⟩ :=
  ⟨rfl,
    (c10_not_found_branch_unreachable
        (fun _ => Except.ok (Part000.getElementHash (Except.error "eval failed")))
        3 3000).1 (StateVal.obj ⟨JSPrim.int 0⟩) rfl,
    (c10_not_found_branch_unreachable
        (fun _ => Except.ok (Part000.getElementHash (Except.error "eval failed")))
        3 3000).2 ⟨false, true, some (Except.ok ())⟩ StateVal.null⟩

/-- Claim C4 counterexample: the claim states that a tick firing while a
check is still running is skipped, keeping at most one run active; in
the source the setInterval callback starts checkForChanges
unconditionally, so with one run in flight a tick raises the active-run
count to two, and two ticks from idle leave two runs active
concurrently. -/
theorem c4_overlap_counterexample :
    schedStep ⟨1⟩ SchedEvent.tick = ⟨2⟩ ∧
      ¬ (runSched [SchedEvent.tick, SchedEvent.tick]).activeRuns ≤ 1 := by
  constructor
  · rfl
  · decide

/-- Claim C4 amended: ticks are never skipped: every interval tick
starts a new checkForChanges run regardless of how many are already in
flight, so after n ticks with no run finishing, n runs are active
concurrently. -/
theorem c4_overlap_amended :
    (∀ s : SchedState, schedStep s SchedEvent.tick = ⟨s.activeRuns + 1⟩) ∧
      ∀ n : Nat, (runSched (List.replicate n SchedEvent.tick)).activeRuns = n := by
  constructor
  · intro s
    rfl
  · intro n
    simp [runSched, runSched_replicate_tick]

/-- Claim C5 counterexample: in the modular monitor with no onAlert
callback configured, a cycle whose acquisition fails reaches the catch
handler, whose own triggerAlert call raises the TypeError for invoking
undefined, and that exception propagates out of checkForChanges to the
scheduler instead of being contained. -/
theorem c5_exception_counterexample :
    (checkForChangesMod ⟨false, true, none⟩ (Except.error "boom", [])
        StateVal.null).1 = Except.error "this.config.onAlert is not a function" := rfl

/-- Claim C5 amended: whenever the alert dispatch completes normally,
checkForChanges catches every error raised inside its try block and
returns a classified result instead of raising; but when no onAlert
callback is configured, the triggerAlert call performed by the catch
handler raises, and that exception propagates out of checkForChanges. -/
theorem c5_exception_containment_amended :
    (∀ (cfg : ModCfg) (acq : Except String StateVal × List Effect) (load : StateVal),
        cfg.onAlert = some (Except.ok ()) →
        ∃ res, (checkForChangesMod cfg acq load).1 = Except.ok res) ∧
      ∀ (cfg : ModCfg) (msg : String) (aes : List Effect) (load : StateVal),
        cfg.onAlert = none →
        (checkForChangesMod cfg (Except.error msg, aes) load).1 =
          Except.error "this.config.onAlert is not a function" := by
  constructor
  · intro cfg acq load hOn
    rcases acq with ⟨r, aes⟩
    cases r with
    | error msg => exact ⟨_, (checkForChangesMod_error cfg hOn msg aes load).1⟩
    | ok sv =>
      cases sv with
      | null =>
        refine ⟨⟨true, "state_retrieval_failed", none⟩, ?_⟩
        obtain ⟨wc, wok, oa⟩ := cfg
        simp only at hOn
        subst hOn
        simp [checkForChangesMod, triggerAlertMod]
      | obj cur =>
        cases load with
        | null =>
          refine ⟨⟨false, "initial_state", none⟩, ?_⟩
          rw [checkForChangesMod_initial]
        | obj prev =>
          by_cases hh : cur.hash = prev.hash
          · refine ⟨⟨false, "no_changes", none⟩, ?_⟩
            rw [checkForChangesMod_no_change cfg aes cur prev hh]
          · exact ⟨_, (checkForChangesMod_changed cfg hOn aes cur prev hh).1⟩
  · intro cfg msg aes load hOn
    obtain ⟨wc, wok, oa⟩ := cfg
    simp only at hOn
    subst hOn
    simp [checkForChangesMod, triggerAlertMod]

theorem c5_exception_containment_amended_witness :
    (⟨false, true, some (Except.ok ())⟩ : ModCfg).onAlert = some (Except.ok ()) ∧
      ∃ res, (checkForChangesMod ⟨false, true, some (Except.ok ())⟩
        (Except.error "boom", []) StateVal.null).1 = Except.ok res :=
  ⟨rfl, c5_exception_containment_amended.1 ⟨false, true, some (Except.ok ())⟩
    (Except.error "boom", []) StateVal.null rfl⟩

/-- Claim C6: the te-alert.js hashing step digests the raw serialized
elementData whatever the ignoreMinorChanges setting, so the two sample
snapshots, which differ only in the deny-listed data-timestamp
attribute, produce different digests even with ignore mode enabled,
although getSignificantContent (defined for exactly this purpose and
never invoked) canonicalizes them identically.  This evaluates the code
at the failing input of the recorded code bug. -/
theorem c6_ignore_minor_changes_bug :
    TEAlert.getElementHash true [sampleElt1] ≠ TEAlert.getElementHash true [sampleElt2] ∧
      getSignificantContent [sampleElt1] = getSignificantContent [sampleElt2] := by
  constructor
  · decide
  · decide

/-- Claim C7 counterexample: with the webhook configured and a
successful callback installed, a failing lamp actuation makes
triggerAlert itself raise, and neither the webhook nor the callback is
attempted: one channel raising prevents delivery to the remaining
channels and the dispatch step does not complete normally. -/
theorem c7_channel_isolation_counterexample :
    (triggerAlertTE ⟨true, true, some (Except.ok ()), Except.error "lamp down"⟩
        "Content has changed" StateVal.null (StateVal.obj ⟨JSPrim.str "h2"⟩)).1 =
        Except.error "lamp down" ∧
      webhooksOf (triggerAlertTE ⟨true, true, some (Except.ok ()), Except.error "lamp down"⟩
        "Content has changed" StateVal.null (StateVal.obj ⟨JSPrim.str "h2"⟩)).2 = [] ∧
      onAlertCallsOf
        (triggerAlertTE ⟨true, true, some (Except.ok ()), Except.error "lamp down"⟩
          "Content has changed" StateVal.null (StateVal.obj ⟨JSPrim.str "h2"⟩)).2 = [] :=
  ⟨rfl, rfl, rfl⟩

/-- Claim C7 amended: the lamp channel is actuated first and unguarded,
so a lamp failure aborts dispatch before the webhook and the callback
and propagates out of triggerAlert; when the lamp succeeds, the webhook
outcome is isolated (it changes neither the dispatch result nor the
callback invocations), and with a succeeding callback the dispatch
completes normally, posting the webhook exactly when configured and
invoking the callback exactly once. -/
theorem c7_channel_isolation_amended :
    (∀ (cfg : TECfg) (reason : String) (prev cur : StateVal) (m : String),
        cfg.lampResult = Except.error m →
        (triggerAlertTE cfg reason prev cur).1 = Except.error m ∧
          webhooksOf (triggerAlertTE cfg reason prev cur).2 = [] ∧
          onAlertCallsOf (triggerAlertTE cfg reason prev cur).2 = []) ∧
      (∀ (cfg : TECfg) (reason : String) (prev cur : StateVal),
        cfg.lampResult = Except.ok () →
        (triggerAlertTE { cfg with webhookOk := true } reason prev cur).1 =
            (triggerAlertTE { cfg with webhookOk := false } reason prev cur).1 ∧
          onAlertCallsOf
              (triggerAlertTE { cfg with webhookOk := true } reason prev cur).2 =
            onAlertCallsOf
              (triggerAlertTE { cfg with webhookOk := false } reason prev cur).2) ∧
      ∀ (cfg : TECfg) (reason : String) (prev cur : StateVal),
        cfg.lampResult = Except.ok () → cfg.onAlert = some (Except.ok ()) →
        (triggerAlertTE cfg reason prev cur).1 = Except.ok () ∧
          webhooksOf (triggerAlertTE cfg reason prev cur).2 =
            (if cfg.webhookConfigured then [mkAlert reason prev cur] else []) ∧
          onAlertCallsOf (triggerAlertTE cfg reason prev cur).2 =
            [mkAlert reason prev cur] := by
  refine ⟨?_, ?_, ?_⟩
  · intro cfg reason prev cur m hlamp
    obtain ⟨wc, wok, oa, lamp⟩ := cfg
    simp only at hlamp
    subst hlamp
    refine ⟨rfl, ?_, ?_⟩ <;> simp [triggerAlertTE, webhooksOf, onAlertCallsOf]
  · intro cfg reason prev cur hlamp
    obtain ⟨wc, wok, oa, lamp⟩ := cfg
    simp only at hlamp
    subst hlamp
    cases oa <;> cases wc <;>
      simp [triggerAlertTE, webhooksOf, onAlertCallsOf, List.filterMap_append]
  · intro cfg reason prev cur hlamp hOn
    obtain ⟨wc, wok, oa, lamp⟩ := cfg
    simp only at hlamp hOn
    subst hlamp
    subst hOn
    cases wc <;>
      simp [triggerAlertTE, webhooksOf, onAlertCallsOf, List.filterMap_append]

theorem c7_channel_isolation_amended_witness :
    (⟨true, true, some (Except.ok ()), Except.error "lamp down"⟩ : TECfg).lampResult =
        Except.error "lamp down" ∧
      ((triggerAlertTE ⟨true, true, some (Except.ok ()), Except.error "lamp down"⟩
          "Monitoring error: x" StateVal.null StateVal.null).1 =
          Except.error "lamp down" ∧
        webhooksOf (triggerAlertTE ⟨true, true, some (Except.ok ()), Except.error "lamp down"⟩
          "Monitoring error: x" StateVal.null StateVal.null).2 = [] ∧
        onAlertCallsOf
          (triggerAlertTE ⟨true, true, some (Except.ok ()), Except.error "lamp down"⟩
            "Monitoring error: x" StateVal.null StateVal.null).2 = []) :=
  ⟨rfl, c7_channel_isolation_amended.1
    ⟨true, true, some (Except.ok ()), Except.error "lamp down"⟩
    "Monitoring error: x" StateVal.null StateVal.null "lamp down" rfl⟩
